import Mathlib

/-!
Verification of the poll-actions core of the alx-polly repository: the
authorization, validation and vote-uniqueness layer (createPoll, updatePoll,
deletePoll, submitVote) together with the sanitizeHtml escaping function and
the Zod validation schemas (pollSchema, voteSchema).  The persistent store
(Supabase) is modelled as an explicit state value threaded through each
action; each action additionally records the list of store effects it issued,
so that claims about "no write was performed" and "no store access happened"
are directly statable.
-/

namespace AlxPolly

/-- Characters escaped by sanitizeHtml, written via code points so the file
stays free of quote characters outside string literals. -/
def ltChar : Char := Char.ofNat 60

def gtChar : Char := Char.ofNat 62

def quotChar : Char := Char.ofNat 34

def aposChar : Char := Char.ofNat 39

def slashChar : Char := Char.ofNat 47

/-- Global single-character regex replacement, the meaning of
input.replace(/c/g, rep) for a one-character pattern c. -/
def replaceChar (c : Char) (rep : List Char) : List Char → List Char
  | [] => []
  | d :: ds => (if d = c then rep else [d]) ++ replaceChar c rep ds

def entLt : List Char := "&lt;".data

def entGt : List Char := "&gt;".data

def entQuot : List Char := "&quot;".data

def entApos : List Char := "&#x27;".data

def entSlash : List Char := "&#x2F;".data

/-- The five chained replaces of sanitizeHtml, in source order:
first the less-than sign, then greater-than, double quote, single quote,
and finally the forward slash. -/
def sanitizeChars (s : List Char) : List Char :=
  replaceChar slashChar entSlash
    (replaceChar aposChar entApos
      (replaceChar quotChar entQuot
        (replaceChar gtChar entGt
          (replaceChar ltChar entLt s))))

/-- sanitizeHtml from app/lib/actions/poll-actions.ts: escapes the five
markup-significant characters to their entity equivalents. -/
def sanitizeHtml (input : String) : String :=
  ⟨sanitizeChars input.data⟩

/-- JavaScript String.prototype.trim whitespace test (restricted to the
whitespace characters relevant here). -/
def isJsWhitespace (c : Char) : Bool :=
  c == Char.ofNat 32 || c == Char.ofNat 9 || c == Char.ofNat 10 ||
  c == Char.ofNat 13 || c == Char.ofNat 12 || c == Char.ofNat 11

def trimChars (cs : List Char) : List Char :=
  ((cs.dropWhile isJsWhitespace).reverse.dropWhile isJsWhitespace).reverse

/-- Zod .trim() transform on a string. -/
def trimStr (s : String) : String :=
  ⟨trimChars s.data⟩

/-- Zod issue produced by the question field of pollSchema:
z.string().min(1, ...).max(500, ...).trim(). -/
def questionIssue (q : String) : Option String :=
  if q.length < 1 then some "Question is required"
  else if q.length > 500 then some "Question must be less than 500 characters"
  else none

/-- Zod issue produced by the options field of pollSchema:
z.array(z.string().min(1).max(200).trim()).min(2, ...).max(10, ...).
Array-level length issues precede element issues, as in Zod. -/
def optionsIssue (options : List String) : Option String :=
  if options.length < 2 then some "At least 2 options are required"
  else if options.length > 10 then some "Maximum 10 options allowed"
  else options.findSome? (fun o =>
    if o.length < 1 then some "String must contain at least 1 character(s)"
    else if o.length > 200 then some "String must contain at most 200 character(s)"
    else none)

/-- pollSchema.safeParse: returns the first issue, or the parsed
(trimmed) values.  Question issues come before options issues because the
question key is declared first in the object shape. -/
def pollSchemaParse (q : String) (options : List String) :
    Except String (String × List String) :=
  match questionIssue q with
  | some m => .error m
  | none =>
    match optionsIssue options with
    | some m => .error m
    | none => .ok (trimStr q, options.map trimStr)

def isHexDigit (c : Char) : Bool :=
  (Char.ofNat 48 ≤ c && c ≤ Char.ofNat 57) ||
  (Char.ofNat 97 ≤ c && c ≤ Char.ofNat 102) ||
  (Char.ofNat 65 ≤ c && c ≤ Char.ofNat 70)

/-- Syntactic UUID check of z.string().uuid(): 36 characters,
hyphens at positions 8, 13, 18 and 23, hexadecimal digits elsewhere. -/
def isValidUuid (s : String) : Bool :=
  let cs := s.data
  cs.length == 36 &&
    cs.enum.all (fun ic =>
      if ic.1 == 8 || ic.1 == 13 || ic.1 == 18 || ic.1 == 23 then
        ic.2 == Char.ofNat 45
      else isHexDigit ic.2)

/-- voteSchema.safeParse: pollId must be a syntactic UUID (custom message
Invalid poll ID), optionIndex must be a non-negative integer (Zod default
too-small message).  The pollId issue comes first, matching the key order
of the object shape. -/
def voteSchemaIssue (pollId : String) (optionIndex : Int) : Option String :=
  if isValidUuid pollId then
    if optionIndex < 0 then some "Number must be greater than or equal to 0"
    else none
  else some "Invalid poll ID"

structure User where
  id : String
  email : String
deriving DecidableEq

/-- Result of supabase.auth.getUser(): a data.user field and an error field.
The session provider is an external collaborator; both fields are inputs. -/
structure AuthResult where
  user : Option User
  error : Option String
deriving DecidableEq

structure Poll where
  id : String
  user_id : String
  question : String
  options : List String
deriving DecidableEq

structure Vote where
  poll_id : String
  user_id : Option String
  option_index : Int
deriving DecidableEq

/-- The two tables of the persistent store that the actions touch. -/
structure Store where
  polls : List Poll
  votes : List Vote
deriving DecidableEq

/-- A postgrest error as surfaced by the store client: a code and a message. -/
structure StoreError where
  code : String
  message : String
deriving DecidableEq

/-- Store accesses an action issues, in order: reads, writes and the
cache-invalidation signal. -/
inductive Effect where
  | pollSelect (id : String)
  | voteSelect (pollId userId : String)
  | pollInsert (p : Poll)
  | voteInsert (v : Vote)
  | pollUpdate (pollId userId question : String) (options : List String)
  | pollDelete (id : String)
  | revalidate (path : String)
deriving DecidableEq

/-- What each server action returns, together with the resulting store state
and the store effects issued while computing it. -/
structure ActionResult where
  error : Option String
  store : Store
  effects : List Effect
deriving DecidableEq

/-- Modelled from the spec: the .single() modifier of the store client
returns the row when the filtered result has exactly one row, and an error
(here: none) when it has zero or several rows. -/
def single? : List α → Option α
  | [x] => some x
  | _ => none

/-- Modelled from the spec: the votes table carries a uniqueness constraint
on (poll_id, user_id); an insert that violates it fails with the
distinguishable error code 23505.  Rows with a null user_id (anonymous
votes) are never in conflict. -/
def insertVote (s : Store) (v : Vote) : Except StoreError Store :=
  match v.user_id with
  | none => .ok { s with votes := s.votes ++ [v] }
  | some _ =>
    if s.votes.any (fun w => w.poll_id == v.poll_id && w.user_id == v.user_id) then
      .error ⟨"23505", "duplicate key value violates unique constraint"⟩
    else .ok { s with votes := s.votes ++ [v] }

/-- createPoll from poll-actions.ts.  rawOptions is the form data after
filter(Boolean); validation and sanitization happen before the session
lookup; the insert is reached only for an authenticated user.  newId stands
for the row id the store generates. -/
def createPoll (rawQuestion : String) (rawOptions : List String)
    (auth : AuthResult) (s : Store) (newId : String) : ActionResult :=
  let options := rawOptions.filter (fun o => !(o == ""))
  match pollSchemaParse rawQuestion options with
  | .error m => ⟨some m, s, []⟩
  | .ok (validQuestion, validOptions) =>
    let sanitizedQuestion := sanitizeHtml validQuestion
    let sanitizedOptions := validOptions.map sanitizeHtml
    match auth.error with
    | some e => ⟨some e, s, []⟩
    | none =>
      match auth.user with
      | none => ⟨some "You must be logged in to create a poll.", s, []⟩
      | some user =>
        let p : Poll := ⟨newId, user.id, sanitizedQuestion, sanitizedOptions⟩
        ⟨none, { s with polls := s.polls ++ [p] },
          [Effect.pollInsert p, Effect.revalidate "/polls"]⟩

/-- updatePoll from poll-actions.ts.  Note: no Zod validation and no
sanitizeHtml here — only the non-empty-question / at-least-two-options
check; the update is scoped by both the poll id and the session user id. -/
def updatePoll (pollId : String) (question : String) (rawOptions : List String)
    (auth : AuthResult) (s : Store) : ActionResult :=
  let options := rawOptions.filter (fun o => !(o == ""))
  if question = "" ∨ options.length < 2 then
    ⟨some "Please provide a question and at least two options.", s, []⟩
  else
    match auth.error with
    | some e => ⟨some e, s, []⟩
    | none =>
      match auth.user with
      | none => ⟨some "You must be logged in to update a poll.", s, []⟩
      | some user =>
        let newPolls := s.polls.map (fun p =>
          if p.id == pollId && p.user_id == user.id then
            { p with question := question, options := options }
          else p)
        ⟨none, { s with polls := newPolls },
          [Effect.pollUpdate pollId user.id question options]⟩

/-- deletePoll from poll-actions.ts: session lookup, ownership fetch,
owner-or-admin check, then the delete scoped by the poll id.  adminEmails is
the resolved ADMIN_EMAILS list (environment configuration). -/
def deletePoll (id : String) (auth : AuthResult) (adminEmails : List String)
    (s : Store) : ActionResult :=
  match auth.error with
  | some e => ⟨some e, s, []⟩
  | none =>
    match auth.user with
    | none => ⟨some "You must be logged in to delete a poll.", s, []⟩
    | some user =>
      match single? (s.polls.filter (fun p => p.id == id)) with
      | none => ⟨some "Poll not found.", s, [Effect.pollSelect id]⟩
      | some poll =>
        let isAdmin := adminEmails.contains user.email
        if poll.user_id ≠ user.id ∧ isAdmin = false then
          ⟨some "You can only delete your own polls.", s, [Effect.pollSelect id]⟩
        else
          ⟨none, { s with polls := s.polls.filter (fun p => !(p.id == id)) },
            [Effect.pollSelect id, Effect.pollDelete id, Effect.revalidate "/polls"]⟩

/-- Insert phase of submitVote: attempts the vote insert and translates a
uniqueness-constraint violation (code 23505) into the duplicate-vote
message, any other store error into its message. -/
def submitVoteInsert (pollId : String) (optionIndex : Int) (uid : Option String)
    (s : Store) (effs : List Effect) : ActionResult :=
  let v : Vote := ⟨pollId, uid, optionIndex⟩
  match insertVote s v with
  | .error e =>
    if e.code == "23505" then
      ⟨some "You have already voted on this poll.", s, effs ++ [Effect.voteInsert v]⟩
    else ⟨some e.message, s, effs ++ [Effect.voteInsert v]⟩
  | .ok s2 => ⟨none, s2, effs ++ [Effect.voteInsert v]⟩

/-- submitVote from poll-actions.ts: Zod validation, session lookup (whose
error field is ignored — only data.user is destructured), poll existence
check, option-index bounds check, duplicate pre-check for authenticated
users, then the insert. -/
def submitVote (pollId : String) (optionIndex : Int) (auth : AuthResult)
    (s : Store) : ActionResult :=
  match voteSchemaIssue pollId optionIndex with
  | some m => ⟨some m, s, []⟩
  | none =>
    let user := auth.user
    match single? (s.polls.filter (fun p => p.id == pollId)) with
    | none => ⟨some "Poll not found.", s, [Effect.pollSelect pollId]⟩
    | some poll =>
      if optionIndex < 0 ∨ (poll.options.length : Int) ≤ optionIndex then
        ⟨some "Invalid option selected.", s, [Effect.pollSelect pollId]⟩
      else
        match user with
        | some u =>
          if (single? (s.votes.filter (fun v =>
              v.poll_id == pollId && v.user_id == some u.id))).isSome then
            ⟨some "You have already voted on this poll.", s,
              [Effect.pollSelect pollId, Effect.voteSelect pollId u.id]⟩
          else
            submitVoteInsert pollId optionIndex (some u.id) s
              [Effect.pollSelect pollId, Effect.voteSelect pollId u.id]
        | none =>
          submitVoteInsert pollId optionIndex none s [Effect.pollSelect pollId]

/-! Sanitizer lemmas -/

theorem mem_replaceChar {x c : Char} {rep : List Char} :
    ∀ {s : List Char}, x ∈ replaceChar c rep s → x ∈ rep ∨ (x ∈ s ∧ x ≠ c) := by
  intro s
  induction s with
  | nil => intro h; simp [replaceChar] at h
  | cons d ds ih =>
    intro h
    rw [replaceChar, List.mem_append] at h
    rcases h with h | h
    · by_cases hd : d = c
      · rw [if_pos hd] at h
        exact Or.inl h
      · rw [if_neg hd] at h
        rcases List.mem_singleton.mp h with rfl
        exact Or.inr ⟨List.mem_cons_self _ _, hd⟩
    · rcases ih h with h1 | ⟨h2, h3⟩
      · exact Or.inl h1
      · exact Or.inr ⟨List.mem_cons_of_mem _ h2, h3⟩

theorem replaceChar_of_not_mem {c : Char} {rep : List Char} :
    ∀ {s : List Char}, c ∉ s → replaceChar c rep s = s := by
  intro s
  induction s with
  | nil => intro _; rfl
  | cons d ds ih =>
    intro h
    have hd : d ≠ c := fun hdc => h (hdc ▸ List.mem_cons_self d ds)
    have hds : c ∉ ds := fun hc => h (List.mem_cons_of_mem _ hc)
    rw [replaceChar, if_neg hd, ih hds, List.singleton_append]

theorem notMem_replaceChar_self {c : Char} {rep s : List Char} (hc : c ∉ rep) :
    c ∉ replaceChar c rep s := fun h =>
  (mem_replaceChar h).elim hc (fun h2 => h2.2 rfl)

theorem notMem_replaceChar_of {x c : Char} {rep s : List Char}
    (hx : x ∉ rep) (hs : x ∉ s) : x ∉ replaceChar c rep s := fun h =>
  (mem_replaceChar h).elim hx (fun h2 => hs h2.1)

theorem ltChar_notMem_sanitizeChars (s : List Char) : ltChar ∉ sanitizeChars s := by
  unfold sanitizeChars
  exact notMem_replaceChar_of (by decide)
    (notMem_replaceChar_of (by decide)
      (notMem_replaceChar_of (by decide)
        (notMem_replaceChar_of (by decide)
          (notMem_replaceChar_self (by decide)))))

theorem gtChar_notMem_sanitizeChars (s : List Char) : gtChar ∉ sanitizeChars s := by
  unfold sanitizeChars
  exact notMem_replaceChar_of (by decide)
    (notMem_replaceChar_of (by decide)
      (notMem_replaceChar_of (by decide)
        (notMem_replaceChar_self (by decide))))

theorem quotChar_notMem_sanitizeChars (s : List Char) : quotChar ∉ sanitizeChars s := by
  unfold sanitizeChars
  exact notMem_replaceChar_of (by decide)
    (notMem_replaceChar_of (by decide)
      (notMem_replaceChar_self (by decide)))

theorem aposChar_notMem_sanitizeChars (s : List Char) : aposChar ∉ sanitizeChars s := by
  unfold sanitizeChars
  exact notMem_replaceChar_of (by decide)
    (notMem_replaceChar_self (by decide))

theorem slashChar_notMem_sanitizeChars (s : List Char) : slashChar ∉ sanitizeChars s := by
  unfold sanitizeChars
  exact notMem_replaceChar_self (by decide)

/-- The output of sanitizeChars is a fixed point of sanitizeChars: none of
the five escaped characters survives the escaping pass, so a second pass
has nothing to replace. -/
theorem sanitizeChars_idem (s : List Char) :
    sanitizeChars (sanitizeChars s) = sanitizeChars s := by
  conv_lhs => rw [sanitizeChars]
  rw [replaceChar_of_not_mem (ltChar_notMem_sanitizeChars s),
    replaceChar_of_not_mem (gtChar_notMem_sanitizeChars s),
    replaceChar_of_not_mem (quotChar_notMem_sanitizeChars s),
    replaceChar_of_not_mem (aposChar_notMem_sanitizeChars s),
    replaceChar_of_not_mem (slashChar_notMem_sanitizeChars s)]

theorem sanitizeHtml_idem (s : String) :
    sanitizeHtml (sanitizeHtml s) = sanitizeHtml s := by
  show (⟨sanitizeChars (sanitizeChars s.data)⟩ : String) = ⟨sanitizeChars s.data⟩
  rw [sanitizeChars_idem]

/-- C5: the claim asserts sanitizeHtml is not idempotent, i.e. that some
string is double-escaped by a second application.  This is false: since
sanitizeHtml does not escape the ampersand, its output never contains any
of the five escaped characters, so no string witnesses the claim. -/
theorem sanitizeHtml_no_double_escape :
    ¬ ∃ s : String, sanitizeHtml (sanitizeHtml s) ≠ sanitizeHtml s :=
  fun ⟨s, hs⟩ => hs (sanitizeHtml_idem s)

/-- C5 (amended): sanitizeHtml is idempotent — applying it a second time
changes nothing, for every input string. -/
theorem sanitizeHtml_idempotent (s : String) :
    sanitizeHtml (sanitizeHtml s) = sanitizeHtml s :=
  sanitizeHtml_idem s

/-- C5 witness: idempotence evaluated at a concrete string containing an
escaped character. -/
theorem sanitizeHtml_idempotent_witness :
    sanitizeHtml (sanitizeHtml "a<b") = sanitizeHtml "a<b" :=
  sanitizeHtml_idempotent "a<b"

/-! Claim theorems about submitVote and deletePoll -/

/-- C7: for every pollId that is not a syntactically valid UUID, submitVote
returns the validation error Invalid poll ID with the store untouched and an
empty effect list — no poll lookup, vote query or insert is performed. -/
theorem submitVote_invalid_uuid (pollId : String) (optionIndex : Int)
    (auth : AuthResult) (s : Store) (h : isValidUuid pollId = false) :
    submitVote pollId optionIndex auth s = ⟨some "Invalid poll ID", s, []⟩ := by
  simp only [submitVote, voteSchemaIssue, h, Bool.false_eq_true, if_false]

/-- C7 witness: the scenario pollId not-a-uuid from the spec, evaluated. -/
theorem submitVote_invalid_uuid_witness :
    isValidUuid "not-a-uuid" = false ∧
      submitVote "not-a-uuid" 0 ⟨none, none⟩ ⟨[], []⟩ =
        ⟨some "Invalid poll ID", ⟨[], []⟩, []⟩ :=
  ⟨by decide, submitVote_invalid_uuid "not-a-uuid" 0 ⟨none, none⟩ ⟨[], []⟩ (by decide)⟩

/-- C10: deletePoll by an authenticated identity on a non-existent poll
returns Poll not found. and issues no delete to the store — the only store
access is the ownership fetch. -/
theorem deletePoll_not_found (id : String) (auth : AuthResult) (u : User)
    (adminEmails : List String) (s : Store)
    (hA : auth.error = none) (hU : auth.user = some u)
    (hN : single? (s.polls.filter (fun p => p.id == id)) = none) :
    deletePoll id auth adminEmails s =
      ⟨some "Poll not found.", s, [Effect.pollSelect id]⟩ := by
  simp only [deletePoll, hA, hU, hN]

/-- C10 witness: a delete against an empty store. -/
theorem deletePoll_not_found_witness :
    deletePoll "11111111-1111-1111-1111-111111111111"
        ⟨some ⟨"u1", "u1@example.com"⟩, none⟩ [] ⟨[], []⟩ =
      ⟨some "Poll not found.", ⟨[], []⟩,
        [Effect.pollSelect "11111111-1111-1111-1111-111111111111"]⟩ :=
  deletePoll_not_found _ _ ⟨"u1", "u1@example.com"⟩ _ _ rfl rfl rfl

/-- C1: deletePoll authorization on an existing poll, for an authenticated
identity.  Owner: allowed (the delete is issued, no error).  Admin-listed
email: allowed regardless of ownership.  Neither: the error
You can only delete your own polls. is returned and no delete is issued. -/
theorem deletePoll_owner_or_admin (id : String) (auth : AuthResult) (u : User)
    (adminEmails : List String) (s : Store) (poll : Poll)
    (hA : auth.error = none) (hU : auth.user = some u)
    (hP : single? (s.polls.filter (fun p => p.id == id)) = some poll) :
    (poll.user_id = u.id →
      (deletePoll id auth adminEmails s).error = none ∧
        Effect.pollDelete id ∈ (deletePoll id auth adminEmails s).effects) ∧
    (u.email ∈ adminEmails →
      (deletePoll id auth adminEmails s).error = none ∧
        Effect.pollDelete id ∈ (deletePoll id auth adminEmails s).effects) ∧
    (poll.user_id ≠ u.id → u.email ∉ adminEmails →
      deletePoll id auth adminEmails s =
        ⟨some "You can only delete your own polls.", s, [Effect.pollSelect id]⟩) := by
  simp only [deletePoll, hA, hU, hP]
  refine ⟨fun hOwn => ?_, fun hAdm => ?_, fun hOwn hAdm => ?_⟩
  · rw [if_neg (fun hc => hc.1 hOwn)]
    exact ⟨rfl, by simp⟩
  · have h2 : adminEmails.contains u.email = true := List.elem_eq_true_of_mem hAdm
    rw [if_neg (fun hc => by rw [hc.2] at h2; exact absurd h2 (by decide))]
    exact ⟨rfl, by simp⟩
  · have h3 : adminEmails.contains u.email = false := by
      cases hh : adminEmails.contains u.email
      · rfl
      · exact absurd (List.mem_of_elem_eq_true hh) hAdm
    rw [if_pos ⟨hOwn, h3⟩]

/-- C1 witness: a non-owner, non-admin delete attempt on an existing poll is
denied with the exact message and no delete effect. -/
theorem deletePoll_owner_or_admin_witness :
    deletePoll "11111111-1111-1111-1111-111111111111"
        ⟨some ⟨"u2", "u2@example.com"⟩, none⟩ ["admin@example.com"]
        ⟨[⟨"11111111-1111-1111-1111-111111111111", "u1", "Q?", ["A", "B"]⟩], []⟩ =
      ⟨some "You can only delete your own polls.",
        ⟨[⟨"11111111-1111-1111-1111-111111111111", "u1", "Q?", ["A", "B"]⟩], []⟩,
        [Effect.pollSelect "11111111-1111-1111-1111-111111111111"]⟩ :=
  (deletePoll_owner_or_admin "11111111-1111-1111-1111-111111111111"
      ⟨some ⟨"u2", "u2@example.com"⟩, none⟩ ⟨"u2", "u2@example.com"⟩
      ["admin@example.com"]
      ⟨[⟨"11111111-1111-1111-1111-111111111111", "u1", "Q?", ["A", "B"]⟩], []⟩
      ⟨"11111111-1111-1111-1111-111111111111", "u1", "Q?", ["A", "B"]⟩
      rfl rfl rfl).2.2 (by decide) (by decide)

/-- C2: a second vote by an authenticated identity that already has a vote
row on the poll is rejected with You have already voted on this poll. and
the store is unchanged — no second row.  The statement requires only that
some duplicate row exists: when the pre-check query sees it (exactly one
matching row) the optimistic phase rejects; when the single() pre-check
misses (several matching rows make it error, which the code ignores), the
store uniqueness constraint rejects the insert with code 23505 and the very
same message is returned. -/
theorem submitVote_duplicate_rejected (pollId : String) (optionIndex : Int)
    (auth : AuthResult) (u : User) (s : Store) (poll : Poll) (w : Vote)
    (hU : auth.user = some u)
    (hUuid : isValidUuid pollId = true)
    (hP : single? (s.polls.filter (fun p => p.id == pollId)) = some poll)
    (h0 : 0 ≤ optionIndex) (hLt : optionIndex < (poll.options.length : Int))
    (hw : w ∈ s.votes) (hwp : w.poll_id = pollId) (hwu : w.user_id = some u.id) :
    (submitVote pollId optionIndex auth s).error =
        some "You have already voted on this poll." ∧
      (submitVote pollId optionIndex auth s).store = s := by
  have hIssue : voteSchemaIssue pollId optionIndex = none := by
    simp only [voteSchemaIssue, hUuid, if_true, if_neg (not_lt.mpr h0)]
  simp only [submitVote, hIssue, hP, hU]
  rw [if_neg (by push_neg; exact ⟨h0, hLt⟩)]
  have hpred : (w.poll_id == pollId && w.user_id == some u.id) = true := by
    simp [hwp, hwu]
  have hmemfl : w ∈ s.votes.filter (fun v => v.poll_id == pollId && v.user_id == some u.id) :=
    List.mem_filter.mpr ⟨hw, hpred⟩
  have hany : (s.votes.any (fun v => v.poll_id == pollId && v.user_id == some u.id)) = true :=
    List.any_eq_true.mpr ⟨w, hw, hpred⟩
  cases hfl : s.votes.filter (fun v => v.poll_id == pollId && v.user_id == some u.id) with
  | nil => rw [hfl] at hmemfl; cases hmemfl
  | cons x xs =>
    cases xs with
    | nil =>
      simp only [single?, Option.isSome_some, if_true]
      constructor <;> trivial
    | cons y ys =>
      simp only [single?, Option.isSome_none, Bool.false_eq_true, if_false,
        submitVoteInsert, insertVote, hany]
      exact ⟨rfl, rfl⟩

/-- C2 witness: a user with an existing vote row votes again on the same
two-option poll; the duplicate is rejected and the store is unchanged. -/
theorem submitVote_duplicate_rejected_witness :
    (submitVote "11111111-1111-1111-1111-111111111111" 1
          ⟨some ⟨"u1", "u1@example.com"⟩, none⟩
          ⟨[⟨"11111111-1111-1111-1111-111111111111", "u1", "Q?", ["A", "B"]⟩],
            [⟨"11111111-1111-1111-1111-111111111111", some "u1", 0⟩]⟩).error =
        some "You have already voted on this poll." ∧
      (submitVote "11111111-1111-1111-1111-111111111111" 1
          ⟨some ⟨"u1", "u1@example.com"⟩, none⟩
          ⟨[⟨"11111111-1111-1111-1111-111111111111", "u1", "Q?", ["A", "B"]⟩],
            [⟨"11111111-1111-1111-1111-111111111111", some "u1", 0⟩]⟩).store =
        ⟨[⟨"11111111-1111-1111-1111-111111111111", "u1", "Q?", ["A", "B"]⟩],
          [⟨"11111111-1111-1111-1111-111111111111", some "u1", 0⟩]⟩ :=
  submitVote_duplicate_rejected "11111111-1111-1111-1111-111111111111" 1
    ⟨some ⟨"u1", "u1@example.com"⟩, none⟩ ⟨"u1", "u1@example.com"⟩
    ⟨[⟨"11111111-1111-1111-1111-111111111111", "u1", "Q?", ["A", "B"]⟩],
      [⟨"11111111-1111-1111-1111-111111111111", some "u1", 0⟩]⟩
    ⟨"11111111-1111-1111-1111-111111111111", "u1", "Q?", ["A", "B"]⟩
    ⟨"11111111-1111-1111-1111-111111111111", some "u1", 0⟩
    rfl (by decide) rfl (by decide) (by decide) (by decide) rfl rfl

/-- C6 (amended): on an existing poll, a non-negative optionIndex at or
beyond the option count is rejected with Invalid option selected. and no
vote is written; a negative optionIndex is rejected earlier, by the schema
validation, with the Zod numeric-bound message and no store access at all. -/
theorem submitVote_option_bounds (pollId : String) (optionIndex : Int)
    (auth : AuthResult) (s : Store) (poll : Poll)
    (hUuid : isValidUuid pollId = true)
    (hP : single? (s.polls.filter (fun p => p.id == pollId)) = some poll) :
    (0 ≤ optionIndex → (poll.options.length : Int) ≤ optionIndex →
      submitVote pollId optionIndex auth s =
        ⟨some "Invalid option selected.", s, [Effect.pollSelect pollId]⟩) ∧
    (optionIndex < 0 →
      submitVote pollId optionIndex auth s =
        ⟨some "Number must be greater than or equal to 0", s, []⟩) := by
  constructor
  · intro h0 hGe
    have hIssue : voteSchemaIssue pollId optionIndex = none := by
      simp only [voteSchemaIssue, hUuid, if_true, if_neg (not_lt.mpr h0)]
    simp only [submitVote, hIssue, hP]
    rw [if_pos (Or.inr hGe)]
  · intro hNeg
    have hIssue : voteSchemaIssue pollId optionIndex =
        some "Number must be greater than or equal to 0" := by
      simp only [voteSchemaIssue, hUuid, if_true, if_pos hNeg]
    simp only [submitVote, hIssue]

/-- C6 counterexample: a negative index on an existing two-option poll is
rejected with the Zod numeric-bound message, not with
Invalid option selected. as the claim states. -/
theorem submitVote_negative_index_message :
    (submitVote "11111111-1111-1111-1111-111111111111" (-1)
          ⟨some ⟨"u1", "u1@example.com"⟩, none⟩
          ⟨[⟨"11111111-1111-1111-1111-111111111111", "u1", "Q?", ["A", "B"]⟩], []⟩).error =
        some "Number must be greater than or equal to 0" ∧
      (submitVote "11111111-1111-1111-1111-111111111111" (-1)
          ⟨some ⟨"u1", "u1@example.com"⟩, none⟩
          ⟨[⟨"11111111-1111-1111-1111-111111111111", "u1", "Q?", ["A", "B"]⟩], []⟩).error ≠
        some "Invalid option selected." := by
  decide

/-- C6 witness: index 5 on a two-option poll is rejected in-bounds-check. -/
theorem submitVote_option_bounds_witness :
    submitVote "11111111-1111-1111-1111-111111111111" 5
        ⟨some ⟨"u1", "u1@example.com"⟩, none⟩
        ⟨[⟨"11111111-1111-1111-1111-111111111111", "u1", "Q?", ["A", "B"]⟩], []⟩ =
      ⟨some "Invalid option selected.",
        ⟨[⟨"11111111-1111-1111-1111-111111111111", "u1", "Q?", ["A", "B"]⟩], []⟩,
        [Effect.pollSelect "11111111-1111-1111-1111-111111111111"]⟩ :=
  (submitVote_option_bounds "11111111-1111-1111-1111-111111111111" 5
      ⟨some ⟨"u1", "u1@example.com"⟩, none⟩
      ⟨[⟨"11111111-1111-1111-1111-111111111111", "u1", "Q?", ["A", "B"]⟩], []⟩
      ⟨"11111111-1111-1111-1111-111111111111", "u1", "Q?", ["A", "B"]⟩
      (by decide) rfl).1 (by decide) (by decide)

theorem map_id_of_fixed {α : Type} {f : α → α} :
    ∀ {l : List α}, (∀ a ∈ l, f a = a) → l.map f = l := by
  intro l
  induction l with
  | nil => intro _; rfl
  | cons a as ih =>
    intro h
    rw [List.map_cons, h a (List.mem_cons_self a as),
      ih (fun b hb => h b (List.mem_cons_of_mem _ hb))]

/-- C8: an update by an authenticated identity that owns no poll with the
given id (in particular, by a non-owner of an existing poll) returns
error none while the polls table is unchanged: the update is scoped by the
owner-id filter, so zero rows are affected and no denial is surfaced. -/
theorem updatePoll_nonowner_silent (pollId question : String)
    (rawOptions : List String) (auth : AuthResult) (u : User) (s : Store)
    (hq : ¬ question = "")
    (hn : ¬ (rawOptions.filter (fun o => !(o == ""))).length < 2)
    (hA : auth.error = none) (hU : auth.user = some u)
    (hOwn : ∀ p ∈ s.polls, p.id = pollId → p.user_id ≠ u.id) :
    (updatePoll pollId question rawOptions auth s).error = none ∧
      (updatePoll pollId question rawOptions auth s).store = s := by
  simp only [updatePoll]
  rw [if_neg (by push_neg; exact ⟨hq, not_lt.mp (by exact hn)⟩)]
  simp only [hA, hU]
  have hm : s.polls.map (fun p =>
      if p.id == pollId && p.user_id == u.id then
        { p with question := question,
                 options := rawOptions.filter (fun o => !(o == "")) }
      else p) = s.polls := by
    refine map_id_of_fixed (fun p hp => ?_)
    rw [if_neg (fun hc => ?_)]
    rw [Bool.and_eq_true, beq_iff_eq, beq_iff_eq] at hc
    exact hOwn p hp hc.1 hc.2
  rw [hm]
  constructor <;> trivial

/-- C8 witness: a non-owner updates an existing poll; the call reports no
error and the stored poll is untouched. -/
theorem updatePoll_nonowner_silent_witness :
    (updatePoll "11111111-1111-1111-1111-111111111111" "New question?" ["X", "Y"]
          ⟨some ⟨"u2", "u2@example.com"⟩, none⟩
          ⟨[⟨"11111111-1111-1111-1111-111111111111", "u1", "Q?", ["A", "B"]⟩], []⟩).error =
        none ∧
      (updatePoll "11111111-1111-1111-1111-111111111111" "New question?" ["X", "Y"]
          ⟨some ⟨"u2", "u2@example.com"⟩, none⟩
          ⟨[⟨"11111111-1111-1111-1111-111111111111", "u1", "Q?", ["A", "B"]⟩], []⟩).store =
        ⟨[⟨"11111111-1111-1111-1111-111111111111", "u1", "Q?", ["A", "B"]⟩], []⟩ :=
  updatePoll_nonowner_silent "11111111-1111-1111-1111-111111111111" "New question?"
    ["X", "Y"] ⟨some ⟨"u2", "u2@example.com"⟩, none⟩ ⟨"u2", "u2@example.com"⟩
    ⟨[⟨"11111111-1111-1111-1111-111111111111", "u1", "Q?", ["A", "B"]⟩], []⟩
    (by decide) (by decide) rfl rfl (by decide)

/-- C9 (amended): when the session lookup itself errors, createPoll (once
its payload passes validation), updatePoll (once its payload passes the
well-formedness check) and deletePoll all return the lookup error message
verbatim with no store access; submitVote, however, never reads the error
field of the lookup result — its outcome is identical to the outcome with
no lookup error, so a vote proceeds as anonymous instead of failing. -/
theorem authError_propagation (e q : String) (rawOptions : List String)
    (pv : String × List String) (adminEmails : List String)
    (authC authU authD : AuthResult) (sC sU sD sV : Store)
    (newId updId delId vId : String) (optionIndex : Int) (uo : Option User)
    (hC : authC.error = some e) (hU2 : authU.error = some e)
    (hD : authD.error = some e)
    (hV : pollSchemaParse q (rawOptions.filter (fun o => !(o == ""))) = .ok pv)
    (hq : ¬ q = "")
    (hn : ¬ (rawOptions.filter (fun o => !(o == ""))).length < 2) :
    createPoll q rawOptions authC sC newId = ⟨some e, sC, []⟩ ∧
      updatePoll updId q rawOptions authU sU = ⟨some e, sU, []⟩ ∧
      deletePoll delId authD adminEmails sD = ⟨some e, sD, []⟩ ∧
      submitVote vId optionIndex ⟨uo, some e⟩ sV =
        submitVote vId optionIndex ⟨uo, none⟩ sV := by
  obtain ⟨vq, vo⟩ := pv
  refine ⟨?_, ?_, ?_, rfl⟩
  · simp only [createPoll, hV, hC]
  · simp only [updatePoll]
    rw [if_neg (by push_neg; exact ⟨hq, not_lt.mp hn⟩)]
    simp only [hU2]
  · simp only [deletePoll, hD]

/-- C9 counterexample: a session-lookup failure during submitVote on an
existing poll is swallowed — the call returns error none and writes an
anonymous vote row, instead of returning the lookup error and writing
nothing. -/
theorem submitVote_swallows_auth_error :
    (submitVote "11111111-1111-1111-1111-111111111111" 0
          ⟨none, some "session lookup failed"⟩
          ⟨[⟨"11111111-1111-1111-1111-111111111111", "u1", "Q?", ["A", "B"]⟩], []⟩).error ≠
        some "session lookup failed" ∧
      (submitVote "11111111-1111-1111-1111-111111111111" 0
          ⟨none, some "session lookup failed"⟩
          ⟨[⟨"11111111-1111-1111-1111-111111111111", "u1", "Q?", ["A", "B"]⟩], []⟩).error =
        none ∧
      (submitVote "11111111-1111-1111-1111-111111111111" 0
          ⟨none, some "session lookup failed"⟩
          ⟨[⟨"11111111-1111-1111-1111-111111111111", "u1", "Q?", ["A", "B"]⟩], []⟩).store.votes =
        [⟨"11111111-1111-1111-1111-111111111111", none, 0⟩] := by
  decide

/-- C9 witness: the amended statement evaluated at a concrete lookup
failure with message boom. -/
theorem authError_propagation_witness :
    createPoll "Q?" ["Yes", "No"] ⟨none, some "boom"⟩ ⟨[], []⟩ "p2" =
        ⟨some "boom", ⟨[], []⟩, []⟩ ∧
      updatePoll "p9" "Q?" ["Yes", "No"] ⟨none, some "boom"⟩ ⟨[], []⟩ =
        ⟨some "boom", ⟨[], []⟩, []⟩ ∧
      deletePoll "p9" ⟨none, some "boom"⟩ [] ⟨[], []⟩ =
        ⟨some "boom", ⟨[], []⟩, []⟩ ∧
      submitVote "p9" 0 ⟨none, some "boom"⟩ ⟨[], []⟩ =
        submitVote "p9" 0 ⟨none, none⟩ ⟨[], []⟩ :=
  authError_propagation "boom" "Q?" ["Yes", "No"] ("Q?", ["Yes", "No"]) []
    ⟨none, some "boom"⟩ ⟨none, some "boom"⟩ ⟨none, some "boom"⟩
    ⟨[], []⟩ ⟨[], []⟩ ⟨[], []⟩ ⟨[], []⟩ "p2" "p9" "p9" "p9" 0 none
    rfl rfl rfl rfl (by decide) (by decide)

/-- C3 (code evaluated at the failing input): createPoll does pass every
free-text field through sanitizeHtml — the inserted question is the escaped
string, free of the five characters — but updatePoll passes the raw
question to the store update: the stored question is the unsanitized input,
which contains a raw less-than character. -/
theorem updatePoll_stores_raw_html :
    (createPoll "<script>alert(1)</script>" ["Yes", "No"]
          ⟨some ⟨"u1", "u1@example.com"⟩, none⟩ ⟨[], []⟩ "p2").store.polls.map
        Poll.question = ["&lt;script&gt;alert(1)&lt;&#x2F;script&gt;"] ∧
      ltChar ∉ "&lt;script&gt;alert(1)&lt;&#x2F;script&gt;".data ∧
      (updatePoll "11111111-1111-1111-1111-111111111111"
          "<script>alert(1)</script>" ["Yes", "No"]
          ⟨some ⟨"u1", "u1@example.com"⟩, none⟩
          ⟨[⟨"11111111-1111-1111-1111-111111111111", "u1", "Q?", ["A", "B"]⟩], []⟩).error =
        none ∧
      (updatePoll "11111111-1111-1111-1111-111111111111"
          "<script>alert(1)</script>" ["Yes", "No"]
          ⟨some ⟨"u1", "u1@example.com"⟩, none⟩
          ⟨[⟨"11111111-1111-1111-1111-111111111111", "u1", "Q?", ["A", "B"]⟩], []⟩).store.polls.map
        Poll.question = ["<script>alert(1)</script>"] ∧
      ltChar ∈ "<script>alert(1)</script>".data := by
  decide

set_option maxRecDepth 4096 in
/-- C4 (code evaluated at the failing input): a 501-character question is
rejected by createPoll with the length-violation message and no store
effect, but updatePoll accepts the same question and writes it to the
poll row. -/
theorem updatePoll_accepts_overlong_question :
    createPoll (⟨List.replicate 501 (Char.ofNat 97)⟩ : String) ["Yes", "No"]
        ⟨some ⟨"u1", "u1@example.com"⟩, none⟩ ⟨[], []⟩ "p2" =
      ⟨some "Question must be less than 500 characters", ⟨[], []⟩, []⟩ ∧
    (updatePoll "11111111-1111-1111-1111-111111111111"
        (⟨List.replicate 501 (Char.ofNat 97)⟩ : String) ["Yes", "No"]
        ⟨some ⟨"u1", "u1@example.com"⟩, none⟩
        ⟨[⟨"11111111-1111-1111-1111-111111111111", "u1", "Q?", ["A", "B"]⟩], []⟩).error =
      none ∧
    (updatePoll "11111111-1111-1111-1111-111111111111"
        (⟨List.replicate 501 (Char.ofNat 97)⟩ : String) ["Yes", "No"]
        ⟨some ⟨"u1", "u1@example.com"⟩, none⟩
        ⟨[⟨"11111111-1111-1111-1111-111111111111", "u1", "Q?", ["A", "B"]⟩], []⟩).store.polls.map
      Poll.question = [⟨List.replicate 501 (Char.ofNat 97)⟩] := by
  decide

end AlxPolly
